import Mathlib

/-!
Shallow embedding of the crypto alert bot `main.py` (price fetch with
fallback, reference-point lookup, change evaluation and notification
gating, RSI computation, news lookup, message composition, scheduling
loop), together with theorems settling the specification claims.

Python floats are modelled by `ℚ` (all behaviours proved here involve only
exactly representable values); IEEE special values reachable in the RSI
pipeline are modelled explicitly by the `RVal` type.
-/

/-- Outcome of one price provider call in `get_coinbase_price`
(src/main.py lines 38-54): either a successfully parsed float price
(`float(data["price"])` resp. `float(r2[cg_id]["usd"])` succeeded), or any
failure (network error, malformed JSON, missing field, unparsable float) —
all failure shapes take the same fallthrough path in the source. -/
inductive ProviderOutcome
  | failure
  | price (v : ℚ)
deriving DecidableEq

/-- Embedding of `get_coinbase_price` (src/main.py lines 38-54): try the
primary (Coinbase) provider; on any failure fall back to the secondary
(CoinGecko) provider; return `none` when both fail.  The second component
records whether the secondary provider was invoked (its HTTP request was
issued; a request that then fails still counts as invoked). -/
def get_coinbase_price (primary secondary : ProviderOutcome) : Option ℚ × Bool :=
  match primary with
  | .price v => (some v, false)
  | .failure =>
    match secondary with
    | .price v => (some v, true)
    | .failure => (none, true)

/-- The percentage-change expression of src/main.py line 159:
`change_pct = (price - prev_price) / prev_price * 100`. -/
def change_pct (price prev_price : ℚ) : ℚ :=
  (price - prev_price) / prev_price * 100

/-- `next_run` of src/main.py line 210: `(now + timedelta(hours=1)).replace
(minute=0, second=5, microsecond=0)`, i.e. truncate `now + 3600` seconds to
its hour and add the fixed 5 second offset.  Time is modelled as rational
seconds since an hour-aligned epoch. -/
def next_run (t : ℚ) : ℚ :=
  3600 * ⌊(t + 3600) / 3600⌋ + 5

/-- `wait_seconds` of src/main.py line 211:
`max((next_run - now).total_seconds(), 60)`. -/
def wait_seconds (t : ℚ) : ℚ :=
  max (next_run t - t) 60

/-- Extended value for the RSI pipeline of `calc_rsi` (src/main.py lines
83-90): a pandas float entry is either NaN, +infinity, -infinity, or a
finite value (modelled exactly by a rational).  All finite values arising
in `calc_rsi` are exact, so no rounding is abstracted away in the
behaviours proved here. -/
inductive RVal
  | nan
  | pinf
  | ninf
  | val (q : ℚ)
deriving DecidableEq

/-- Whether an entry is a finite (non-NaN, non-infinite) value. -/
def RVal.isVal : RVal → Bool
  | .val _ => true
  | _ => false

/-- The finite value carried by an entry (0 for the non-finite entries,
which are never consulted under the `isVal` guard). -/
def RVal.toQ : RVal → ℚ
  | .val q => q
  | _ => 0

/-- `series.diff()` of src/main.py line 84: first entry NaN, then the
pairwise successive differences. -/
def series_diff (xs : List ℚ) : List RVal :=
  match xs with
  | [] => []
  | x :: rest => RVal.nan :: List.zipWith (fun a b => RVal.val (b - a)) (x :: rest) rest

/-- `delta.clip(lower=0)` of src/main.py line 85, elementwise. -/
def clip_up : RVal → RVal
  | .nan => .nan
  | .pinf => .pinf
  | .ninf => .val 0
  | .val d => .val (max d 0)

/-- `-delta.clip(upper=0)` of src/main.py line 86, elementwise. -/
def clip_down : RVal → RVal
  | .nan => .nan
  | .pinf => .val 0
  | .ninf => .pinf
  | .val d => .val (max (-d) 0)

/-- pandas `Series.rolling(period).mean()` of src/main.py lines 87-88 with
the default `min_periods = period`: entry `i` is NaN when fewer than
`period` observations exist or the window contains a NaN (a non-finite
entry; only NaN and finite entries ever reach the rolling means here), and
otherwise the arithmetic mean of the window ending at `i`. -/
def rollingMean (period : Nat) (xs : List RVal) : List RVal :=
  (List.range xs.length).map fun i =>
    if i + 1 < period then .nan
    else
      let window := (xs.take (i + 1)).drop (i + 1 - period)
      if window.all RVal.isVal then .val ((window.map RVal.toQ).sum / period)
      else .nan

/-- IEEE-754 style elementwise division used by `roll_up / roll_down` and
`100 / (1 + rs)` (src/main.py lines 89-90): NaN propagates, a positive
finite value divided by zero gives +infinity, 0/0 gives NaN, and a finite
value divided by an infinity gives 0. -/
def rdiv : RVal → RVal → RVal
  | .val a, .val b =>
    if b = 0 then
      if a = 0 then .nan else if 0 < a then .pinf else .ninf
    else .val (a / b)
  | .pinf, .val b => if b < 0 then .ninf else .pinf
  | .ninf, .val b => if b < 0 then .pinf else .ninf
  | .val _, .pinf => .val 0
  | .val _, .ninf => .val 0
  | _, _ => .nan

/-- `1 + rs` of src/main.py line 90, elementwise. -/
def radd1 : RVal → RVal
  | .nan => .nan
  | .pinf => .pinf
  | .ninf => .ninf
  | .val q => .val (1 + q)

/-- `100 - x` of src/main.py line 90, elementwise. -/
def rsub100 : RVal → RVal
  | .nan => .nan
  | .pinf => .ninf
  | .ninf => .pinf
  | .val q => .val (100 - q)

/-- Embedding of `calc_rsi` (src/main.py lines 83-90):
`delta = series.diff(); up = delta.clip(lower=0); down = -delta.clip(upper=0);
rs = up.rolling(period).mean() / down.rolling(period).mean();
return 100 - 100 / (1 + rs)`. -/
def calc_rsi (series : List ℚ) (period : Nat) : List RVal :=
  let delta := series_diff series
  let up := delta.map clip_up
  let down := delta.map clip_down
  let roll_up := rollingMean period up
  let roll_down := rollingMean period down
  let rs := List.zipWith rdiv roll_up roll_down
  rs.map fun r => rsub100 (rdiv (.val 100) (radd1 r))

/-- `abs(x)` on a numpy float value (src/main.py line 160), IEEE
semantics: the absolute value of NaN is NaN and of either infinity is
+infinity. -/
def rabs : RVal → RVal
  | .nan => .nan
  | .pinf => .pinf
  | .ninf => .pinf
  | .val q => .val |q|

/-- The numpy float comparison `x < c` (src/main.py line 160): every
comparison with NaN is false, +infinity is not below any finite bound,
-infinity is below every finite bound. -/
def rlt_const (x : RVal) (c : ℚ) : Bool :=
  match x with
  | .nan => false
  | .pinf => false
  | .ninf => true
  | .val q => q < c

/-- numpy evaluation of the line-159 expression
`(price - prev_price) / prev_price * 100`, where `prev_price` is the
np.float64 scalar `df_prev["price"].values[0]`: division by zero does not
raise (unlike pure-Python floats) — with a zero reference it yields NaN
when the numerator is zero and ±infinity according to the numerator's
sign (with only a RuntimeWarning), and with a non-zero reference the
finite `change_pct`. -/
def np_change_pct (price prev_price : ℚ) : RVal :=
  if prev_price = 0 then
    if price - prev_price = 0 then .nan
    else if 0 < price - prev_price then .pinf
    else .ninf
  else .val (change_pct price prev_price)

/-- Outcome of the change-evaluation step of `analyze_coin`
(src/main.py lines 159-162): `skipped` models the early `return` when
`abs(change_pct) < 3`; `notified c` models falling through to message
composition with the computed (possibly non-finite) change. -/
inductive EvalOutcome
  | skipped
  | notified (c : RVal)
deriving DecidableEq

/-- Embedding of src/main.py lines 159-162: compute the change with numpy
float semantics (a zero `prev_price` gives ±infinity or NaN rather than
raising) and gate on `abs(change_pct) < 3`; the comparison is false for
NaN and +infinity, so a zero reference falls through to the notify path.
The source has no reference-price validation. -/
def change_step (price prev_price : ℚ) : EvalOutcome :=
  if rlt_const (rabs (np_change_pct price prev_price)) 3 then .skipped
  else .notified (np_change_pct price prev_price)

/-- tz-awareness of the history timestamps:
`pd.to_datetime(df["timestamp"], unit="ms")` (src/main.py line 77)
produces tz-naive timestamps. -/
def history_ts_tz_aware : Bool := false

/-- tz-awareness of the reference target: `yesterday_same_hour` derives
from `datetime.datetime.now(TZ)` (src/main.py lines 138 and 152), so
`pd.Timestamp(yesterday_same_hour)` (line 153) is tz-aware
(America/Bogota). -/
def target_ts_tz_aware : Bool := true

/-- The pandas subtraction of src/main.py line 153,
`df["timestamp"] - pd.Timestamp(yesterday_same_hour)`, over millisecond
timestamps: pandas raises TypeError (modelled as `.error ()`) when one
operand is tz-naive and the other tz-aware, and otherwise yields the
elementwise differences.  The `.abs().argsort()[:1]` row selection that
would follow a successful subtraction is not modelled: for the program's
operands (tz-naive history series, tz-aware target) the subtraction
always raises, so that selection is unreachable — and numpy's default
quicksort gives no specified order among equal sort keys in any case. -/
def series_sub_timestamp (seriesAware : Bool) (ts : List ℤ) (targetAware : Bool)
    (target : ℤ) : Except Unit (List ℤ) :=
  if seriesAware = targetAware then .ok (ts.map fun t => t - target)
  else .error ()

/-- A Python string represented by its list of physical lines (the
segments between newline characters).  The representation is a bijection:
the empty Python string is `[""]`, a string with no newline is `[s]`, and
`"a\nb"` is `["a", "b"]`; joining strings with `"\n"` corresponds to
appending their line lists. -/
abbrev PyStr := List String

/-- Python truthiness of a string: falsy exactly for the empty string
(whose line representation is `[""]`), as used by the comprehension
`[l for l in lines if l]` of src/main.py line 184. -/
def py_truthy (s : PyStr) : Bool := s ≠ [""]

/-- One news article as rendered by `get_news_for_symbol` (src/main.py
lines 92-111): the f-string interpolations `a.get('title')`,
`a.get('source',{}).get('name')` and `a.get('url')` already rendered to
text (Python renders a missing field as the non-empty text `None`). -/
structure Article where
  title : String
  source : String
  url : String
deriving DecidableEq

/-- The two physical lines one article contributes to the digest
(src/main.py lines 100 and 108):
`f"• {title} ({source})\n  {url}"`. -/
def format_article (a : Article) : PyStr :=
  ["• " ++ a.title ++ " (" ++ a.source ++ ")", "  " ++ a.url]

/-- Header line of a non-empty news digest (src/main.py lines 100, 108). -/
def news_header : String := "📰 *Noticias relevantes:*"

/-- The fixed fallback message of src/main.py line 111. -/
def no_news_msg : PyStr := ["📰 No hay noticias relevantes disponibles."]

/-- A non-empty news digest: the header followed by each article's lines
(`"📰 *Noticias relevantes:*\n" + "\n".join(...)`). -/
def news_body (articles : List Article) : PyStr :=
  news_header :: (articles.map format_article).join

/-- One provider block of `get_news_for_symbol` (src/main.py lines 93-102
resp. 103-110): skipped entirely when the API key is not configured
(`key = false`); `resp = none` models the request or JSON parse raising
(the `except: pass` path); `resp = some arts` models a successful response
whose `r.get("articles", [])` parsed to `arts`.  Returns `some text` when
the block returns from the function (truncating to `max_articles` and
yielding the empty string for an empty article list), `none` when control
falls through to the next block. -/
def try_news_provider (key : Bool) (resp : Option (List Article))
    (max_articles : Nat) : Option PyStr :=
  if key then
    match resp with
    | some arts =>
      let articles := arts.take max_articles
      some (if articles.isEmpty then [""] else news_body articles)
    | none => none
  else none

/-- Embedding of `get_news_for_symbol` (src/main.py lines 92-111): try the
NewsAPI block, then the GNews block, else return the fixed no-news
message.  The second component records whether the second (GNews) provider
was consulted (its HTTP request issued — which happens exactly when the
first block fell through and the GNews key is configured, whether or not
that request then succeeds). -/
def get_news_for_symbol (k1 : Bool) (r1 : Option (List Article)) (k2 : Bool)
    (r2 : Option (List Article)) (max_articles : Nat) : PyStr × Bool :=
  match try_news_provider k1 r1 max_articles with
  | some res => (res, false)
  | none =>
    match try_news_provider k2 r2 max_articles with
    | some res => (res, true)
    | none => (no_news_msg, k2)

/-- Message line 1 of src/main.py line 172. -/
def header_line (label : String) : String :=
  "📊 *ANÁLISIS EDUCATIVO — " ++ label ++ "*"

/-- Message line 2 of src/main.py line 173. -/
def time_line (ts : String) : String := "⏱ " ++ ts ++ " (hora Colombia)"

/-- Message line 3 of src/main.py line 174 (the formatted price text). -/
def price_line (p : String) : String := "💵 *Precio actual:* $" ++ p

/-- The SMA comparison line of src/main.py line 175, given whether
`price > sma_val` and the formatted SMA value. -/
def sma_line (above : Bool) (smaStr : String) : String :=
  "📈 Precio " ++ (if above then "por encima" else "por debajo")
    ++ " de SMA20 ($" ++ smaStr ++ ")"

/-- The RSI line of src/main.py line 176 (the formatted RSI value). -/
def rsi_line (rsiStr : String) : String := "📉 RSI14: " ++ rsiStr

/-- The percent-change line of src/main.py line 177. -/
def change_line (c : String) : String :=
  "📊 Cambio respecto ayer misma hora: " ++ c ++ "%"

/-- The disclaimer line of src/main.py line 181. -/
def footer_line : String :=
  "_Este análisis es educativo, no es asesoramiento financiero._"

/-- The `lines` list of src/main.py lines 171-182, entry by entry.
`smaVal` models `pd.notna(sma_val)` together with the data the defined
case renders (the `price > sma_val` comparison and the formatted value);
`rsiVal` likewise for `pd.notna(rsi_val)`; an undefined indicator
contributes the empty string, exactly as the conditional expressions in
the source do.  `news` is the (possibly multi-line) string returned by
`get_news_for_symbol`, flanked by the two `""` separator entries. -/
def build_lines (label ts priceStr : String) (smaVal : Option (Bool × String))
    (rsiVal : Option String) (changeStr : String) (news : PyStr) : List PyStr :=
  [[header_line label], [time_line ts], [price_line priceStr],
   [match smaVal with | some (b, s) => sma_line b s | none => ""],
   [match rsiVal with | some s => rsi_line s | none => ""],
   [change_line changeStr],
   [""],
   news,
   [""],
   [footer_line]]

/-- `message = "\n".join([l for l in lines if l])` of src/main.py
line 184: keep only truthy (non-empty) entries and join them with
newlines; in the line representation the join is the concatenation of
the kept entries' line lists (and the join of no entries is the empty
string `[""]`). -/
def compose_message (label ts priceStr : String) (smaVal : Option (Bool × String))
    (rsiVal : Option String) (changeStr : String) (news : PyStr) : PyStr :=
  let kept := (build_lines label ts priceStr smaVal rsiVal changeStr news).filter py_truthy
  if kept.isEmpty then [""] else kept.join

/-- C1: for every current price and (non-zero) reference price the
notification decision is `shouldNotify = abs(changePercent) >= 3` with the
boundary inclusive: the skip branch is taken exactly when
`abs(change_pct) < 3`, and the notify branch exactly when
`3 ≤ abs(change_pct)` (so equality at the threshold notifies). -/
theorem C1_notification_threshold_inclusive (price prev : ℚ) (h : prev ≠ 0) :
    (change_step price prev = .notified (.val (change_pct price prev)) ↔
      3 ≤ |change_pct price prev|) ∧
    (change_step price prev = .skipped ↔ |change_pct price prev| < 3) := by
  have hnp : np_change_pct price prev = .val (change_pct price prev) := if_neg h
  unfold change_step
  rw [hnp]
  by_cases hc : |change_pct price prev| < 3 <;>
    simp [rabs, rlt_const, hc, not_le.mpr, le_of_not_lt]

/-- Witness for C1 at the boundary: current 103 vs reference 100 gives a
change of exactly 3 percent, and the asset is notified. -/
theorem C1_witness : change_step 103 100 = EvalOutcome.notified (.val 3) := by
  have h := (C1_notification_threshold_inclusive 103 100 (by norm_num)).1
  have hc : change_pct 103 100 = 3 := by norm_num [change_pct]
  rw [hc] at h
  exact h.mpr (by norm_num)

/-- C2: the computed percentage change follows the formula
`(currentPrice - referencePrice) / referencePrice * 100`; in particular
`change_pct 110 100 = 10` and `change_pct 90 100 = -10`, and for every
(non-zero, per the evaluate contract's well-definedness condition)
reference price, every change value the evaluation step passes to
notification equals the formula. -/
theorem C2_change_formula :
    change_pct 110 100 = 10 ∧ change_pct 90 100 = -10 ∧
    ∀ price prev, prev ≠ 0 → ∀ c, change_step price prev = .notified c →
      c = .val ((price - prev) / prev * 100) := by
  refine ⟨by norm_num [change_pct], by norm_num [change_pct], ?_⟩
  intro price prev h c hEq
  unfold change_step at hEq
  split at hEq
  · exact absurd hEq (by simp)
  · have hnp : np_change_pct price prev = .val (change_pct price prev) := if_neg h
    rw [hnp] at hEq
    injection hEq with h2
    rw [← h2]
    rfl

/-- Witness for C2: the evaluation at current 110, reference 100 notifies
with change value 10, which equals the formula. -/
theorem C2_witness : RVal.val 10 = RVal.val ((110 - 100) / 100 * 100 : ℚ) := by
  apply C2_change_formula.2.2 110 100 (by norm_num) (RVal.val 10)
  have hnp : np_change_pct 110 100 = RVal.val 10 := by
    norm_num [np_change_pct, change_pct]
  unfold change_step
  rw [hnp, if_neg]
  norm_num [rabs, rlt_const]

/-- C4: the fetch consults the primary provider first: whenever the primary
yields a parsed (positive) float the result is that value and the secondary
is never invoked; the fetch returns no price exactly when both providers
fail; and the secondary is invoked exactly when the primary fails. -/
theorem C4_primary_short_circuits (v : ℚ) (hv : 0 < v) (secondary : ProviderOutcome) :
    get_coinbase_price (.price v) secondary = (some v, false) ∧
    ∀ p s : ProviderOutcome,
      ((get_coinbase_price p s).1 = none ↔ p = .failure ∧ s = .failure) ∧
      ((get_coinbase_price p s).2 = true ↔ p = .failure) := by
  refine ⟨rfl, ?_⟩
  intro p s
  cases p <;> cases s <;> simp [get_coinbase_price]

/-- Witness for C4: primary parses 1.0 (positive), secondary fails; the
fetch returns 1.0 without invoking the secondary. -/
theorem C4_witness : get_coinbase_price (.price 1) .failure = (some 1, false) :=
  (C4_primary_short_circuits 1 (by norm_num) .failure).1

/-- C5 counterexample: the source has no positivity check — when the
primary provider's `price` field parses to `0.0`, `get_coinbase_price`
returns `0.0`, which is not strictly greater than zero. -/
theorem C5_counterexample :
    (get_coinbase_price (.price 0) .failure).1 = some 0 ∧ ¬ (0 : ℚ) > 0 :=
  ⟨rfl, by norm_num⟩

/-- C5 amended: every price the fetch returns is a successfully parsed
float from one of the providers in fallback order (the primary's parsed
value, or the secondary's when the primary failed); positivity is not
enforced. -/
theorem C5_returned_price_is_parsed (p s : ProviderOutcome) (v : ℚ)
    (h : (get_coinbase_price p s).1 = some v) :
    p = .price v ∨ (p = .failure ∧ s = .price v) := by
  cases p <;> cases s <;> simp_all [get_coinbase_price]

/-- Witness for C5 amended: with the primary parsing 5.0, the returned 5.0
is the primary's parsed value. -/
theorem C5_witness :
    ProviderOutcome.price 5 = .price (5 : ℚ) ∨
      (ProviderOutcome.price 5 = .failure ∧ ProviderOutcome.failure = .price (5 : ℚ)) :=
  C5_returned_price_is_parsed (.price 5) .failure 5 rfl

/-- C6 counterexample: a reference price of -100 is ≤ 0, yet the evaluation
neither fails nor skips: the division is performed and the asset is
notified with change -210 percent. -/
theorem C6_counterexample :
    (-100 : ℚ) ≤ 0 ∧ change_step 110 (-100) = .notified (.val (-210)) := by
  refine ⟨by norm_num, ?_⟩
  have hnp : np_change_pct 110 (-100) = RVal.val (-210) := by
    norm_num [np_change_pct, change_pct]
  unfold change_step
  rw [hnp, if_neg]
  norm_num [rabs, rlt_const]

/-- C6 amended: the source has no reference-price guard.  With a reference
price of exactly 0 the numpy division yields ±infinity (or NaN when the
current price is also 0) without raising, and since `abs < 3` is false for
NaN and +infinity the evaluation falls through to the notify path; with a
strictly negative reference the division is performed as-is and the usual
threshold gating applies (so the asset may even be notified).  There is no
InvalidReference failure and no skip in either case. -/
theorem C6_no_reference_guard (price prev : ℚ) :
    (prev = 0 →
      change_step price prev =
        .notified (if price = 0 then .nan else if 0 < price then .pinf else .ninf)) ∧
    (prev < 0 →
      change_step price prev =
        if |change_pct price prev| < 3 then .skipped
        else .notified (.val (change_pct price prev))) := by
  constructor
  · intro h0
    subst h0
    by_cases hp : price = 0
    · simp [change_step, np_change_pct, hp, rabs, rlt_const]
    · by_cases hp2 : 0 < price
      · simp [change_step, np_change_pct, hp, hp2, rabs, rlt_const]
      · simp [change_step, np_change_pct, hp, hp2, rabs, rlt_const]
  · intro hneg
    have hnp : np_change_pct price prev = .val (change_pct price prev) :=
      if_neg (ne_of_lt hneg)
    unfold change_step
    rw [hnp]
    simp [rabs, rlt_const]

/-- Witness for C6 amended: with current 110 and reference 0 the
evaluation notifies with +infinity (no exception, no skip), and with
current 110, reference -100 it follows the unguarded
division-and-threshold path. -/
theorem C6_witness :
    change_step 110 0 =
      .notified (if (110 : ℚ) = 0 then RVal.nan else if 0 < (110 : ℚ) then .pinf else .ninf) ∧
    change_step 110 (-100) =
      if |change_pct 110 (-100)| < 3 then .skipped
      else .notified (.val (change_pct 110 (-100))) :=
  ⟨(C6_no_reference_guard 110 0).1 rfl, (C6_no_reference_guard 110 (-100)).2 (by norm_num)⟩

/-- C3 (code bug): the reference-point lookup of src/main.py line 153 can
never return a point: the history timestamps are tz-naive while the target
timestamp is tz-aware, so the pandas subtraction raises TypeError for
every series and target, and the claimed closest-point selection is never
reached.  The same subtraction with matching tz-awareness would succeed
with the elementwise differences, so the failure is exactly the
tz mismatch. -/
theorem C3_reference_lookup_raises (ts : List ℤ) (target : ℤ) :
    series_sub_timestamp history_ts_tz_aware ts target_ts_tz_aware target = .error () ∧
    series_sub_timestamp history_ts_tz_aware ts history_ts_tz_aware target =
      .ok (ts.map fun t => t - target) := by
  constructor <;>
    simp [series_sub_timestamp, history_ts_tz_aware, target_ts_tz_aware]

/-- C8: the scheduling loop's sleep duration is always at least 60 seconds,
and absent the floor it targets the top of the next hour plus the fixed 5
second offset; the pre-floor computed wait always lies in (5, 3605], so the
loop never tight-loops. -/
theorem C8_sleep_floor (t : ℚ) :
    60 ≤ wait_seconds t ∧
    next_run t = 3600 * ((⌊t / 3600⌋ : ℚ) + 1) + 5 ∧
    5 < next_run t - t ∧ next_run t - t ≤ 3605 := by
  have hfl : next_run t = 3600 * ((⌊t / 3600⌋ : ℚ) + 1) + 5 := by
    unfold next_run
    rw [show (t + 3600) / 3600 = t / 3600 + 1 by ring, Int.floor_add_one]
    push_cast
    ring
  have hle : (⌊t / 3600⌋ : ℚ) ≤ t / 3600 := Int.floor_le _
  have hlt : t / 3600 < (⌊t / 3600⌋ : ℚ) + 1 := Int.lt_floor_add_one _
  refine ⟨le_max_right _ _, hfl, ?_, ?_⟩
  · rw [hfl]
    nlinarith
  · rw [hfl]
    nlinarith

/-- Indexing a `zipWith` at a position where both lists are defined. -/
lemma get?_zipWith {α β γ : Type} (f : α → β → γ) :
    ∀ (l1 : List α) (l2 : List β) (i : ℕ) (x : α) (y : β),
      l1.get? i = some x → l2.get? i = some y →
      (List.zipWith f l1 l2).get? i = some (f x y) := by
  intro l1
  induction l1 with
  | nil => intro l2 i x y h _; simp at h
  | cons a l1 ih =>
    intro l2 i x y h1 h2
    cases l2 with
    | nil => simp at h2
    | cons b l2 =>
      cases i with
      | zero => simp_all
      | succ n => simpa using ih l2 n x y (by simpa using h1) (by simpa using h2)

/-- Every element of a `zipWith` is the image of elements of the lists. -/
lemma mem_zipWith {α β γ : Type} {f : α → β → γ} :
    ∀ {l1 : List α} {l2 : List β} {z : γ}, z ∈ List.zipWith f l1 l2 →
      ∃ x ∈ l1, ∃ y ∈ l2, z = f x y := by
  intro l1
  induction l1 with
  | nil => intro l2 z h; simp at h
  | cons a l1 ih =>
    intro l2 z h
    cases l2 with
    | nil => simp at h
    | cons b l2 =>
      rw [List.zipWith_cons_cons] at h
      rcases List.mem_cons.mp h with h | h
      · exact ⟨a, List.mem_cons_self _ _, b, List.mem_cons_self _ _, h⟩
      · obtain ⟨x, hx, y, hy, hz⟩ := ih h
        exact ⟨x, List.mem_cons.mpr (Or.inr hx), y, List.mem_cons.mpr (Or.inr hy), hz⟩

/-- A rolling mean over a series shorter than the period is all NaN. -/
lemma rollingMean_all_nan (period : Nat) (xs : List RVal) (h : xs.length < period) :
    ∀ r ∈ rollingMean period xs, r = .nan := by
  intro r hr
  unfold rollingMean at hr
  obtain ⟨i, hi, hval⟩ := List.mem_map.mp hr
  rw [List.mem_range] at hi
  rw [if_pos (by omega)] at hval
  exact hval.symm

/-- `series.diff()` preserves length. -/
lemma length_series_diff (xs : List ℚ) : (series_diff xs).length = xs.length := by
  cases xs <;> simp [series_diff]

/-- C7: the RSI computation yields exactly 100 at any index where the
rolling mean of downward moves is (defined and) zero while the rolling
mean of upward moves is defined and positive (via the IEEE chain
`u/0 = +inf`, `100 - 100/(1 + inf) = 100`); and when the series has fewer
points than the period, every RSI entry is NaN (undefined). -/
theorem C7_rsi_meanDown_zero_and_short_series (prices : List ℚ) (period : Nat) :
    (∀ i u,
      (rollingMean period ((series_diff prices).map clip_down)).get? i = some (.val 0) →
      (rollingMean period ((series_diff prices).map clip_up)).get? i = some (.val u) →
      0 < u →
      (calc_rsi prices period).get? i = some (.val 100)) ∧
    (prices.length < period → ∀ r ∈ calc_rsi prices period, r = .nan) := by
  constructor
  · intro i u hd hu hupos
    unfold calc_rsi
    rw [List.get?_map,
      get?_zipWith rdiv _ _ i (RVal.val u) (RVal.val 0) hu hd]
    have hdiv : rdiv (RVal.val u) (RVal.val 0) = RVal.pinf := by
      simp [rdiv, hupos.ne', hupos]
    rw [Option.map_some', hdiv]
    simp [radd1, rdiv, rsub100]
  · intro hlen r hr
    unfold calc_rsi at hr
    obtain ⟨z, hz, hfz⟩ := List.mem_map.mp hr
    obtain ⟨x, hx, y, hy, hxy⟩ := mem_zipWith hz
    have hxn : x = RVal.nan := by
      refine rollingMean_all_nan period _ ?_ x hx
      rw [List.length_map, length_series_diff]
      exact hlen
    have hyn : y = RVal.nan := by
      refine rollingMean_all_nan period _ ?_ y hy
      rw [List.length_map, length_series_diff]
      exact hlen
    rw [← hfz, hxy, hxn, hyn]
    simp [rdiv, radd1, rsub100]

/-- Witness for C7: over prices [1,2,3,4] with period 2, at index 2 the
down-mean is 0 and the up-mean is 1, and the RSI entry is exactly 100;
over the 3-point series [1,2,3] with period 5 every RSI entry is NaN. -/
theorem C7_witness :
    (calc_rsi [1, 2, 3, 4] 2).get? 2 = some (.val 100) ∧
    ∀ r ∈ calc_rsi [1, 2, 3] 5, r = .nan := by
  constructor
  · exact (C7_rsi_meanDown_zero_and_short_series [1, 2, 3, 4] 2).1 2 1
      (by norm_num [rollingMean, series_diff, clip_down, List.range_succ, RVal.isVal, RVal.toQ])
      (by norm_num [rollingMean, series_diff, clip_up, List.range_succ, RVal.isVal, RVal.toQ])
      (by norm_num)
  · exact (C7_rsi_meanDown_zero_and_short_series [1, 2, 3] 5).2 (by norm_num)

/-- A string with a non-empty left part of an append is non-empty. -/
lemma append_ne_empty_left (a b : String) (h : a ≠ "") : a ++ b ≠ "" := by
  intro hc
  apply h
  have hd := congrArg String.data hc
  rw [String.data_append] at hd
  rcases List.append_eq_nil.mp hd with ⟨ha, -⟩
  exact String.ext ha

/-- A one-line non-empty string is truthy. -/
lemma py_truthy_single {x : String} (h : x ≠ "") : py_truthy [x] = true := by
  simp [py_truthy, h]

/-- The empty Python string is falsy. -/
lemma py_truthy_empty : py_truthy [""] = false := by simp [py_truthy]

lemma header_line_ne (label : String) : header_line label ≠ "" :=
  append_ne_empty_left _ _ (append_ne_empty_left _ _ (by decide))

lemma time_line_ne (ts : String) : time_line ts ≠ "" :=
  append_ne_empty_left _ _ (append_ne_empty_left _ _ (by decide))

lemma price_line_ne (p : String) : price_line p ≠ "" :=
  append_ne_empty_left _ _ (by decide)

lemma sma_line_ne (b : Bool) (s : String) : sma_line b s ≠ "" :=
  append_ne_empty_left _ _ (append_ne_empty_left _ _
    (append_ne_empty_left _ _ (append_ne_empty_left _ _ (by decide))))

lemma rsi_line_ne (s : String) : rsi_line s ≠ "" :=
  append_ne_empty_left _ _ (by decide)

lemma change_line_ne (c : String) : change_line c ≠ "" :=
  append_ne_empty_left _ _ (append_ne_empty_left _ _ (by decide))

lemma footer_line_ne : footer_line ≠ "" := by decide

/-- Every physical line of a non-empty news digest is non-empty: the
header starts with the news emoji and every article line starts with a
bullet or an indent. -/
lemma news_body_lines_ne (arts : List Article) :
    ∀ l ∈ news_body arts, l ≠ "" := by
  intro l hl
  rcases List.mem_cons.mp hl with h | h
  · subst h
    decide
  · obtain ⟨ls, hls, hmem⟩ := List.mem_join.mp h
    obtain ⟨a, -, rfl⟩ := List.mem_map.mp hls
    rcases List.mem_cons.mp hmem with h2 | h2
    · subst h2
      apply append_ne_empty_left
      apply append_ne_empty_left
      apply append_ne_empty_left
      apply append_ne_empty_left
      decide
    rcases List.mem_cons.mp h2 with h3 | h3
    · subst h3
      apply append_ne_empty_left
      decide
    · simp at h3

/-- A returning news-provider block yields either the empty string or a
news digest. -/
lemma try_news_provider_cases (k : Bool) (r : Option (List Article)) (m : Nat)
    (res : PyStr) (h : try_news_provider k r m = some res) :
    res = [""] ∨ ∃ arts, res = news_body arts := by
  unfold try_news_provider at h
  split at h
  · cases r with
    | none => simp at h
    | some arts =>
      simp only [Option.some.injEq] at h
      rw [← h]
      split
      · exact Or.inl rfl
      · exact Or.inr ⟨_, rfl⟩
  · simp at h

/-- The text returned by the news lookup is either the empty string or has
only non-empty physical lines. -/
lemma get_news_lines_ne (k1 : Bool) (r1 : Option (List Article)) (k2 : Bool)
    (r2 : Option (List Article)) (m : Nat) :
    (get_news_for_symbol k1 r1 k2 r2 m).1 = [""] ∨
      ∀ l ∈ (get_news_for_symbol k1 r1 k2 r2 m).1, l ≠ "" := by
  unfold get_news_for_symbol
  cases h1 : try_news_provider k1 r1 m with
  | some res =>
    rcases try_news_provider_cases k1 r1 m res h1 with hc | ⟨arts, hc⟩
    · exact Or.inl hc
    · exact Or.inr (by rw [hc]; exact news_body_lines_ne arts)
  | none =>
    cases h2 : try_news_provider k2 r2 m with
    | some res =>
      rcases try_news_provider_cases k2 r2 m res h2 with hc | ⟨arts, hc⟩
      · exact Or.inl hc
      · exact Or.inr (by rw [hc]; exact news_body_lines_ne arts)
    | none =>
      refine Or.inr ?_
      intro l hl
      rcases List.mem_cons.mp hl with h | h
      · subst h
        decide
      · simp at h

/-- Structure of the composed message: the three mandatory head lines, the
SMA line exactly when defined, the RSI line exactly when defined, the
change line, the news text exactly when truthy (the two `""` separator
entries are always dropped), and the disclaimer. -/
lemma compose_message_structure (label ts priceStr : String)
    (smaVal : Option (Bool × String)) (rsiVal : Option String)
    (changeStr : String) (news : PyStr) :
    compose_message label ts priceStr smaVal rsiVal changeStr news =
      [header_line label, time_line ts, price_line priceStr]
      ++ (match smaVal with | some (b, s) => [sma_line b s] | none => [])
      ++ (match rsiVal with | some s => [rsi_line s] | none => [])
      ++ [change_line changeStr]
      ++ (if py_truthy news then news else [])
      ++ [footer_line] := by
  rcases smaVal with _ | ⟨b, s⟩ <;> rcases rsiVal with _ | s' <;>
    by_cases hn : py_truthy news <;>
      simp [compose_message, build_lines, List.filter, hn,
        py_truthy_single (header_line_ne label), py_truthy_single (time_line_ne ts),
        py_truthy_single (price_line_ne priceStr), py_truthy_single (sma_line_ne _ _),
        py_truthy_single (rsi_line_ne _), py_truthy_single (change_line_ne changeStr),
        py_truthy_single footer_line_ne, py_truthy_empty]

/-- When the news text is the empty string or all its lines are non-empty,
the composed message has no empty line. -/
lemma compose_message_no_empty_line (label ts priceStr : String)
    (smaVal : Option (Bool × String)) (rsiVal : Option String)
    (changeStr : String) (news : PyStr)
    (hok : news = [""] ∨ ∀ l ∈ news, l ≠ "") :
    "" ∉ compose_message label ts priceStr smaVal rsiVal changeStr news := by
  rw [compose_message_structure]
  intro hmem
  have hne : ∀ l ∈ (if py_truthy news then news else ([] : PyStr)), l ≠ "" := by
    rcases hok with hok | hok
    · subst hok
      rw [py_truthy_empty]
      simp
    · split
      · exact hok
      · simp
  rcases List.mem_append.mp hmem with h | hF
  · rcases List.mem_append.mp h with h | hN
    · rcases List.mem_append.mp h with h | hC
      · rcases List.mem_append.mp h with h | hR
        · rcases List.mem_append.mp h with hA | hS
          · rcases List.mem_cons.mp hA with h | hA
            · exact header_line_ne label h.symm
            rcases List.mem_cons.mp hA with h | hA
            · exact time_line_ne ts h.symm
            rcases List.mem_cons.mp hA with h | hA
            · exact price_line_ne priceStr h.symm
            · simp at hA
          · rcases smaVal with _ | ⟨b, s⟩
            · simp at hS
            · rcases List.mem_cons.mp hS with h | hS
              · exact sma_line_ne b s h.symm
              · simp at hS
        · rcases rsiVal with _ | s
          · simp at hR
          · rcases List.mem_cons.mp hR with h | hR
            · exact rsi_line_ne s h.symm
            · simp at hR
      · rcases List.mem_cons.mp hC with h | hC
        · exact change_line_ne changeStr h.symm
        · simp at hC
    · exact hne "" hN rfl
  · rcases List.mem_cons.mp hF with h | hF
    · exact footer_line_ne h.symm
    · simp at hF

/-- C9: in the composed notification message the SMA comparison line is
present exactly when the latest SMA20 value is defined and the RSI line
exactly when the latest RSI14 value is defined; every falsy entry
(undefined indicator lines and the two blank separator entries around the
news section) is dropped before joining; and the delivered text never
contains an empty line. -/
theorem C9_message_lines (label ts priceStr : String)
    (smaVal : Option (Bool × String)) (rsiVal : Option String)
    (changeStr : String) (k1 : Bool) (r1 : Option (List Article)) (k2 : Bool)
    (r2 : Option (List Article)) (m : Nat) :
    compose_message label ts priceStr smaVal rsiVal changeStr
        (get_news_for_symbol k1 r1 k2 r2 m).1 =
      [header_line label, time_line ts, price_line priceStr]
      ++ (match smaVal with | some (b, s) => [sma_line b s] | none => [])
      ++ (match rsiVal with | some s => [rsi_line s] | none => [])
      ++ [change_line changeStr]
      ++ (if py_truthy (get_news_for_symbol k1 r1 k2 r2 m).1 then
            (get_news_for_symbol k1 r1 k2 r2 m).1
          else [])
      ++ [footer_line] ∧
    "" ∉ compose_message label ts priceStr smaVal rsiVal changeStr
        (get_news_for_symbol k1 r1 k2 r2 m).1 :=
  ⟨compose_message_structure label ts priceStr smaVal rsiVal changeStr _,
   compose_message_no_empty_line label ts priceStr smaVal rsiVal changeStr _
     (get_news_lines_ne k1 r1 k2 r2 m)⟩

/-- Witness for C9 at concrete arguments (no news keys configured, both
indicators undefined): the delivered message contains no empty line. -/
theorem C9_witness :
    "" ∉ compose_message "BTC" "2025-01-01 10:00:00" "31000.00" none none "3.33"
        (get_news_for_symbol false none false none 3).1 :=
  (C9_message_lines "BTC" "2025-01-01 10:00:00" "31000.00" none none "3.33"
    false none false none 3).2

/-- The empty string differs from the fixed no-news message. -/
lemma empty_ne_no_news : ([""] : PyStr) ≠ no_news_msg := by decide

/-- A news digest differs from the fixed no-news message (their first
lines differ). -/
lemma news_body_ne_no_news (arts : List Article) : news_body arts ≠ no_news_msg := by
  intro hc
  have h := congrArg List.headI hc
  simp only [news_body, no_news_msg, List.headI] at h
  exact absurd h (by decide)

/-- A provider block falls through exactly when its key is missing or its
request raised. -/
lemma try_news_provider_none_iff (k : Bool) (r : Option (List Article)) (m : Nat) :
    try_news_provider k r m = none ↔ (k = true → r = none) := by
  cases k <;> cases r <;> simp [try_news_provider]

/-- A returning provider block never yields the fixed no-news message. -/
lemma try_news_res_ne_no_news (k : Bool) (r : Option (List Article)) (m : Nat)
    (res : PyStr) (h : try_news_provider k r m = some res) : res ≠ no_news_msg := by
  rcases try_news_provider_cases k r m res h with hc | ⟨arts, hc⟩
  · subst hc
    exact empty_ne_no_news
  · subst hc
    exact news_body_ne_no_news arts

/-- C10: when the first configured news provider responds successfully
with zero articles, the lookup returns the empty string (a falsy value,
so the news section is dropped from the message) and the second provider
is never consulted; and the fixed no-news message is returned exactly
when every configured provider's request raised (in particular when no
key is configured at all). -/
theorem C10_news_empty_and_fallback (k2 : Bool) (r2 : Option (List Article)) (m : Nat) :
    (get_news_for_symbol true (some []) k2 r2 m = ([""], false) ∧
      py_truthy [""] = false) ∧
    ∀ (k1 : Bool) (r1 : Option (List Article)),
      ((get_news_for_symbol k1 r1 k2 r2 m).1 = no_news_msg ↔
        (k1 = true → r1 = none) ∧ (k2 = true → r2 = none)) := by
  constructor
  · exact ⟨by simp [get_news_for_symbol, try_news_provider], py_truthy_empty⟩
  · intro k1 r1
    constructor
    · intro h
      unfold get_news_for_symbol at h
      cases h1 : try_news_provider k1 r1 m with
      | some res =>
        rw [h1] at h
        exact absurd h (try_news_res_ne_no_news k1 r1 m res h1)
      | none =>
        rw [h1] at h
        cases h2 : try_news_provider k2 r2 m with
        | some res =>
          rw [h2] at h
          exact absurd h (try_news_res_ne_no_news k2 r2 m res h2)
        | none =>
          exact ⟨(try_news_provider_none_iff k1 r1 m).mp h1,
            (try_news_provider_none_iff k2 r2 m).mp h2⟩
    · rintro ⟨ha, hb⟩
      have h1 : try_news_provider k1 r1 m = none :=
        (try_news_provider_none_iff k1 r1 m).mpr ha
      have h2 : try_news_provider k2 r2 m = none :=
        (try_news_provider_none_iff k2 r2 m).mpr hb
      unfold get_news_for_symbol
      rw [h1, h2]

/-- Witness for C10: with the first key configured and a successful
zero-article response, the lookup returns the empty string without
consulting the second provider. -/
theorem C10_witness :
    get_news_for_symbol true (some []) true (some [⟨"t", "s", "u"⟩]) 3 = ([""], false) :=
  (C10_news_empty_and_fallback true (some [⟨"t", "s", "u"⟩]) 3).1.1
